import Mathlib

/-!
Verification of the chunked CSV preprocessing pipeline in
`src/data/preprocessing` (preprocess.py, analyze.py, type_conversion.py).

The pandas data model is shallowly embedded: a DataFrame chunk is a `Frame`
holding a schema (column name and dtype, in order) together with rows, where
each row is an ordered association list from column name to cell value.
Timestamps are abstracted as integers (seconds since the Unix epoch); pandas
floats are rationals with `none` standing for NaN; machine-integer `astype`
casts are modelled by explicit two's-complement wrapping on `Int`.  Parsing of
date strings (`pd.to_datetime` on string data) is abstracted as a function
`String → Option Int`, `none` standing for an unparseable value (NaT under
`errors='coerce'`, an exception for the cutoff argument).
-/

namespace USAcc

/-- Pandas column dtypes that occur in the pipeline. -/
inductive Dtype
  | int8 | int16 | int32 | int64
  | float32 | float64
  | boolT | objectT | stringT | datetimeT | categoryT
  deriving DecidableEq, Repr

/-- A cell value.  `float none` models NaN; `timestamp` models `datetime64`
values as seconds since the Unix epoch; `na` models a missing value (NaN in an
object column, NaT in a datetime column). -/
inductive Value
  | na
  | int (n : Int)
  | float (q : Option ℚ)
  | str (s : String)
  | bool (b : Bool)
  | timestamp (t : Int)
  deriving DecidableEq, Repr

/-- One record: an ordered association list from column name to value. -/
abbrev Row := List (String × Value)

/-- A DataFrame chunk: schema (name, dtype, in column order) plus rows. -/
structure Frame where
  cols : List (String × Dtype)
  rows : List Row
  deriving DecidableEq, Repr

/-- First-match lookup in an association list (pandas column access). -/
def assocGet {β : Type} : List (String × β) → String → Option β
  | [], _ => none
  | (k, v) :: r, n => if k = n then some v else assocGet r n

/-- Value of column `n` in row `r`. -/
def rowGet (r : Row) (n : String) : Option Value := assocGet r n

/-- Dtype of column `n` in frame `df`. -/
def colDtype (df : Frame) (n : String) : Option Dtype := assocGet df.cols n

/-- Column names of a frame, in order. -/
def colNames (df : Frame) : List String := df.cols.map Prod.fst

/-- Rewrite the value stored under key `n` (all occurrences), keeping order. -/
def rowSet (n : String) (f : Value → Value) : Row → Row
  | [] => []
  | (k, v) :: r =>
    if k = n then (k, f v) :: rowSet n f r else (k, v) :: rowSet n f r

/-- Pandas column assignment `df[n] = v` at row level: overwrite in place when
the column exists, append at the end otherwise. -/
def rowAssign (n : String) (v : Value) (r : Row) : Row :=
  if (rowGet r n).isSome then rowSet n (fun _ => v) r else r ++ [(n, v)]

/-- Pandas column assignment at schema level. -/
def colsAssign (n : String) (d : Dtype) (cs : List (String × Dtype)) :
    List (String × Dtype) :=
  if (assocGet cs n).isSome then
    cs.map (fun c => if c.1 = n then (c.1, d) else c)
  else cs ++ [(n, d)]

/-- Drop the listed keys from a row. -/
def rowDropKeys (names : List String) : Row → Row
  | [] => []
  | (k, v) :: r =>
    if k ∈ names then rowDropKeys names r else (k, v) :: rowDropKeys names r

/-- Overwrite the dtype recorded for column `n`. -/
def setColDtype (n : String) (d : Dtype) (cs : List (String × Dtype)) :
    List (String × Dtype) :=
  cs.map fun c => if c.1 = n then (c.1, d) else c

deriving instance DecidableEq for Except

/-! ### String helpers (Python `in`, `re.sub`, `strip`) -/

/-- ASCII upper-casing of one character (column names are ASCII, so this is
Python `str.upper` on them); written as a plain match so that it reduces in
the kernel. -/
def upChar : Char → Char
  | 'a' => 'A' | 'b' => 'B' | 'c' => 'C' | 'd' => 'D' | 'e' => 'E'
  | 'f' => 'F' | 'g' => 'G' | 'h' => 'H' | 'i' => 'I' | 'j' => 'J'
  | 'k' => 'K' | 'l' => 'L' | 'm' => 'M' | 'n' => 'N' | 'o' => 'O'
  | 'p' => 'P' | 'q' => 'Q' | 'r' => 'R' | 's' => 'S' | 't' => 'T'
  | 'u' => 'U' | 'v' => 'V' | 'w' => 'W' | 'x' => 'X' | 'y' => 'Y'
  | 'z' => 'Z'
  | c => c

/-- Python `str.upper` on an (ASCII) string. -/
def strUpper (s : String) : String := ⟨s.data.map upChar⟩

/-- Does `p` start the list `s`?  (Own definition, definitionally transparent.) -/
def leadsWith : List Char → List Char → Bool
  | [], _ => true
  | _ :: _, [] => false
  | p :: ps, c :: cs => decide (p = c) && leadsWith ps cs

/-- Does the pattern occur somewhere in `s` (Python `pat in s`)? -/
def hasSub (pat : List Char) : List Char → Bool
  | [] => leadsWith pat []
  | c :: cs => leadsWith pat (c :: cs) || hasSub pat cs

/-- Python substring test `pat in s` on strings. -/
def strHasSub (pat s : String) : Bool := hasSub pat.data s.data

/-- Split off everything up to and including the first occurrence of `c`;
`none` when `c` does not occur. -/
def dropThroughChar (c : Char) : List Char → Option (List Char)
  | [] => none
  | x :: xs => if x = c then some xs else dropThroughChar c xs

/-- One `re.sub(r'\([^)]*\)', '', s)` pass with fuel: delete each
parenthesised group `( ... )`; an unclosed `(` is kept verbatim, exactly as
the regex leaves it unmatched. -/
def dropParensAux : Nat → List Char → List Char
  | 0, cs => cs
  | fuel + 1, cs =>
    match cs with
    | [] => []
    | x :: xs =>
      if x = '(' then
        match dropThroughChar ')' xs with
        | some rest => dropParensAux fuel rest
        | none => x :: xs
      else x :: dropParensAux fuel xs

def dropParens (cs : List Char) : List Char := dropParensAux cs.length cs

/-- Python `str.strip()`: drop leading and trailing characters satisfying `p`. -/
def trimEnds (p : Char → Bool) (cs : List Char) : List Char :=
  ((cs.dropWhile p).reverse.dropWhile p).reverse

/-- `re.sub(r'\s+', '_', s)`: replace each maximal whitespace run by one `_`.
The flag records whether the previous character was whitespace. -/
def squashWsAux : Bool → List Char → List Char
  | _, [] => []
  | inRun, c :: cs =>
    if c.isWhitespace then
      (if inRun then [] else ['_']) ++ squashWsAux true cs
    else c :: squashWsAux false cs

/-- `re.sub(r'_+', '_', s)`: collapse runs of underscores. -/
def squashUnderscoreAux : Bool → List Char → List Char
  | _, [] => []
  | inRun, c :: cs =>
    if c = '_' then
      (if inRun then [] else ['_']) ++ squashUnderscoreAux true cs
    else c :: squashUnderscoreAux false cs

/-- Column-name standardisation of `phase_standardize_columns` /
`standardize_column_names`: uppercase, delete parenthesised groups, strip,
whitespace runs to `_`, collapse `_` runs, strip `_`. -/
def normalizeColName (s : String) : String :=
  let u := (strUpper s).data
  let noParen := dropParens u
  let stripped := trimEnds Char.isWhitespace noParen
  let underscored := squashWsAux false stripped
  let collapsed := squashUnderscoreAux false underscored
  ⟨trimEnds (fun c => decide (c = '_')) collapsed⟩

/-! ### Timestamps and the time-feature computations -/

/-- Abstraction of `pd.to_datetime` on one string: `some t` is a parsed
timestamp (seconds since the Unix epoch), `none` an unparseable value. -/
abbrev ParseFn := String → Option Int

/-- `pd.to_datetime(value, errors='coerce')` on one cell.  Timestamps stay,
strings go through the parse function, NaN/NaT/bool coerce to NaT; numeric
values denote an epoch offset (unit abstracted). -/
def toDatetimeOpt (p : ParseFn) : Value → Option Int
  | .timestamp t => some t
  | .str s => p s
  | .int n => some n
  | .float (some q) => some ⌊q⌋
  | .float none => none
  | .na => none
  | .bool _ => none

/-- Convert the time column of a row to `datetime64` values
(NaT for unparseable cells). -/
def convertTimeRow (p : ParseFn) (tc : String) (r : Row) : Row :=
  rowSet tc
    (fun v => match toDatetimeOpt p v with
      | some t => .timestamp t
      | none => .na) r

/-- The parse status of the time cell of an (unconverted) row. -/
def parseCell (p : ParseFn) (tc : String) (r : Row) : Option Int :=
  (rowGet r tc).bind (toDatetimeOpt p)

/-- Two's-complement wrap of `numpy.astype` to a signed `bits`-bit integer. -/
def wrapInt (bits : Nat) (z : Int) : Int :=
  (z + 2 ^ (bits - 1)) % 2 ^ bits - 2 ^ (bits - 1)

/-- Civil date (year, month, day) of a day count relative to 1970-01-01,
following the standard proleptic-Gregorian conversion used by pandas. -/
def civilFromDays (z0 : Int) : Int × Int × Int :=
  let z := z0 + 719468
  let era := z.fdiv 146097
  let doe := z - era * 146097
  let yoe := (doe - doe.fdiv 1460 + doe.fdiv 36524 - doe.fdiv 146096).fdiv 365
  let y := yoe + era * 400
  let doy := doe - (365 * yoe + yoe.fdiv 4 - yoe.fdiv 100)
  let mp := (5 * doy + 2).fdiv 153
  let d := doy - (153 * mp + 2).fdiv 5 + 1
  let m := mp + (if mp < 10 then 3 else -9)
  (y + (if m ≤ 2 then 1 else 0), m, d)

/-- Pandas `Series.dt.dayofweek` (Monday = 0 … Sunday = 6) of an epoch-seconds
timestamp; 1970-01-01 was a Thursday (= 3). -/
def dayOfWeekTs (t : Int) : Int := (t.fdiv 86400 + 3).emod 7

/-- The timestamp falls on a Saturday (pandas day-of-week 5). -/
def fallsOnSaturday (t : Int) : Prop := dayOfWeekTs t = 5

/-- The timestamp falls on a Sunday (pandas day-of-week 6). -/
def fallsOnSunday (t : Int) : Prop := dayOfWeekTs t = 6

instance decFallsOnSaturday (t : Int) : Decidable (fallsOnSaturday t) :=
  inferInstanceAs (Decidable (dayOfWeekTs t = 5))

instance decFallsOnSunday (t : Int) : Decidable (fallsOnSunday t) :=
  inferInstanceAs (Decidable (dayOfWeekTs t = 6))

/-- The eight derived time features of `phase_create_time_features`, with the
`astype` width casts of the source (`int16` for YEAR, `int8` for the rest). -/
def timeFeatureVals (t : Int) : List (String × Value) :=
  let days := t.fdiv 86400
  let secs := t.emod 86400
  let c := civilFromDays days
  [("YEAR", .int (wrapInt 16 c.1)),
   ("QUARTER", .int (wrapInt 8 ((c.2.1 + 2).fdiv 3))),
   ("MONTH", .int (wrapInt 8 c.2.1)),
   ("DAY", .int (wrapInt 8 c.2.2)),
   ("HOUR", .int (wrapInt 8 (secs.fdiv 3600))),
   ("MINUTE", .int (wrapInt 8 ((secs.emod 3600).fdiv 60))),
   ("SECOND", .int (wrapInt 8 (secs.emod 60))),
   ("IS_WEEKEND", .bool (decide (dayOfWeekTs t = 5 ∨ dayOfWeekTs t = 6)))]

/-- Schema entries of the derived time features. -/
def timeFeatureDtypes : List (String × Dtype) :=
  [("YEAR", .int16), ("QUARTER", .int8), ("MONTH", .int8), ("DAY", .int8),
   ("HOUR", .int8), ("MINUTE", .int8), ("SECOND", .int8),
   ("IS_WEEKEND", .boolT)]

/-! ### Phase 1: `phase_delete_columns` (preprocess.py lines 519-522) -/

/-- Phase 1: drop the listed columns when present; identity when none of the
listed columns occur, exactly like the source's conditional `df.drop`. -/
def phase_delete_columns (df : Frame) (columnsToDelete : List String) : Frame :=
  let columnsToDrop := columnsToDelete.filter fun c => decide (c ∈ colNames df)
  if columnsToDrop.isEmpty then df
  else
    { cols := df.cols.filter fun c => decide (c.1 ∉ columnsToDrop),
      rows := df.rows.map (rowDropKeys columnsToDrop) }

/-! ### Phase 2: `phase_filter_date` (preprocess.py lines 524-534) -/

/-- Is the (converted) time cell a timestamp at or after the cutoff?  NaT and
missing cells compare as `False`, as in pandas. -/
def keepAfter (c : Int) (tc : String) (r : Row) : Bool :=
  match rowGet r tc with
  | some (.timestamp t) => decide (c ≤ t)
  | _ => false

/-- The in-place `pd.to_datetime` conversion of the time column performed by
`phase_filter_date` when the column is not already `datetime64`. -/
def filterPrep (p : ParseFn) (tc : String) (df : Frame) : Frame :=
  if colDtype df tc = some .datetimeT then df
  else
    { cols := setColDtype tc .datetimeT df.cols,
      rows := df.rows.map (convertTimeRow p tc) }

/-- The frame kept by phase 2 for a parsed cutoff `c`. -/
def filterOutput (p : ParseFn) (tc : String) (c : Int) (df : Frame) : Frame :=
  let df1 := filterPrep p tc df
  { df1 with rows := df1.rows.filter (keepAfter c tc) }

/-- Phase 2: pass-through when the time column is absent; otherwise convert
the column to datetime, parse the cutoff (`pd.to_datetime(date_cutoff)`
raises - `error` - when unparseable) and keep rows with timestamp ≥ cutoff. -/
def phase_filter_date (p : ParseFn) (df : Frame) (timeColumn : String)
    (dateCutoff : String) : Except Unit Frame :=
  if timeColumn ∈ colNames df then
    match p dateCutoff with
    | none => .error ()
    | some c => .ok (filterOutput p timeColumn c df)
  else .ok df

/-! ### Phase 3: `phase_create_time_features` (preprocess.py lines 536-555) -/

/-- A converted time cell on which the `astype` casts of phase 3 would raise:
anything but an actual timestamp (NaT from a null or unparseable source). -/
def badTimeCell (tc : String) (r : Row) : Bool :=
  match rowGet r tc with
  | some (.timestamp _) => false
  | _ => true

/-- Row-level phase 3: assign the eight derived columns (in-place overwrite
when a column of that name exists, append otherwise, as pandas assignment
does), then drop the source time column. -/
def deriveTimeRow (tc : String) (r : Row) : Row :=
  let t := match rowGet r tc with
    | some (.timestamp t) => t
    | _ => 0
  rowDropKeys [tc] ((timeFeatureVals t).foldl (fun acc kv => rowAssign kv.1 kv.2 acc) r)

/-- Schema-level phase 3. -/
def deriveTimeCols (tc : String) (cs : List (String × Dtype)) :
    List (String × Dtype) :=
  (timeFeatureDtypes.foldl (fun acc kv => colsAssign kv.1 kv.2 acc) cs).filter
    fun c => decide (c.1 ≠ tc)

/-- Phase 3: pass-through when the time column is absent; otherwise convert
it with `errors='coerce'` and derive YEAR … IS_WEEKEND.  The `astype('int8')`
/ `astype('int16')` casts raise (`error`) as soon as any row's time cell is
NaT, since `Series.dt.year` etc. are NaN there. -/
def phase_create_time_features (p : ParseFn) (df : Frame)
    (timeColumn : String) : Except Unit Frame :=
  if timeColumn ∈ colNames df then
    let conv := df.rows.map (convertTimeRow p timeColumn)
    if conv.any (badTimeCell timeColumn) then .error ()
    else .ok { cols := deriveTimeCols timeColumn (setColDtype timeColumn .datetimeT df.cols),
               rows := conv.map (deriveTimeRow timeColumn) }
  else .ok df

/-! ### Phase 4: `phase_sql_data_types` (preprocess.py lines 557-592) -/

/-- The coordinate column names rounded to 6 decimals by phase 4. -/
def coordCols : List String := ["Start_Lat", "Start_Lng", "LATITUDE", "LONGITUDE"]

/-- Round a rational to `k` decimal places. -/
def roundTo (k : Nat) (q : ℚ) : ℚ := (round (q * 10 ^ k) : Int) / 10 ^ k

/-- `Series.round` on one numeric cell; `error` on values on which pandas
`round` raises (strings, booleans, datetimes). -/
def roundVal (k : Nat) : Value → Except Unit Value
  | .int n => .ok (.float (some n))
  | .float (some q) => .ok (.float (some (roundTo k q)))
  | .float none => .ok (.float none)
  | .na => .ok .na
  | .str _ => .error ()
  | .bool _ => .error ()
  | .timestamp _ => .error ()

/-- Names whose `int` columns are cast to `int8` in phase 4. -/
def tinyIntCols : List String :=
  ["QUARTER", "MONTH", "DAY", "HOUR", "MINUTE", "SECOND"]

/-- Phase 4 cell transformation for a column of name `n` and (pre-phase)
dtype `d`: coordinates round to 6 decimals and become float64; other float
columns round to 4 decimals; `int64`/`int32` columns are width-cast by name;
bool columns become `int8` 0/1; object columns are merely retyped, every
value passing through unchanged. -/
def sqlValTransform (n : String) (d : Dtype) (v : Value) : Except Unit Value :=
  if n ∈ coordCols then roundVal 6 v
  else if d = .float64 ∨ d = .float32 then roundVal 4 v
  else if d = .int64 ∨ d = .int32 then
    match v with
    | .int z =>
        if n = "YEAR" then .ok (.int (wrapInt 16 z))
        else if n ∈ tinyIntCols then .ok (.int (wrapInt 8 z))
        else .ok (.int (wrapInt 32 z))
    | v => .ok v
  else if d = .boolT then
    match v with
    | .bool b => .ok (.int (if b then 1 else 0))
    | v => .ok v
  else .ok v

/-- Phase 4 dtype transformation mirroring `sqlValTransform`. -/
def sqlColDtype (n : String) (d : Dtype) : Dtype :=
  if n ∈ coordCols then .float64
  else if d = .float64 ∨ d = .float32 then .float64
  else if d = .int64 ∨ d = .int32 then
    (if n = "YEAR" then .int16 else if n ∈ tinyIntCols then .int8 else .int32)
  else if d = .boolT then .int8
  else if d = .objectT then .stringT
  else d

/-- `Except`-valued map, kept structurally recursive for clean induction. -/
def exMapM {α β : Type} (f : α → Except Unit β) : List α → Except Unit (List β)
  | [] => .ok []
  | a :: l =>
    match f a with
    | .error e => .error e
    | .ok b =>
      match exMapM f l with
      | .error e => .error e
      | .ok l' => .ok (b :: l')

/-- Phase 4 applied to one cell; the column dtype is read off the pre-phase
schema (cells of columns missing from the schema pass through). -/
def sqlKvTransform (cs : List (String × Dtype)) : String × Value →
    Except Unit (String × Value)
  | (k, v) =>
    match assocGet cs k with
    | some d => (sqlValTransform k d v).map fun w => (k, w)
    | none => .ok (k, v)

/-- Phase 4 applied to one row. -/
def sqlRowTransform (cs : List (String × Dtype)) (r : Row) : Except Unit Row :=
  exMapM (sqlKvTransform cs) r

/-- Phase 4: SQL-Server-oriented dtype normalisation. -/
def phase_sql_data_types (df : Frame) : Except Unit Frame :=
  match exMapM (sqlRowTransform df.cols) df.rows with
  | .error e => .error e
  | .ok rows' =>
      .ok { cols := df.cols.map fun c => (c.1, sqlColDtype c.1 c.2), rows := rows' }

/-! ### Phase 5: `phase_standardize_columns` (preprocess.py lines 594-620) -/

/-- Rename one column key. -/
def renameKey (old new : String) (s : String) : String :=
  if s = old then new else s

/-- Phase 5: normalise every column name, then apply the coordinate rename
map START_LAT → LATITUDE, START_LNG → LONGITUDE (each only when present). -/
def phase_standardize_columns (df : Frame) : Frame :=
  let df1 : Frame :=
    { cols := df.cols.map fun c => (normalizeColName c.1, c.2),
      rows := df.rows.map fun r => r.map fun kv => (normalizeColName kv.1, kv.2) }
  let step := fun (acc : Frame) (m : String × String) =>
    if m.1 ∈ colNames acc then
      { cols := acc.cols.map fun c => (renameKey m.1 m.2 c.1, c.2),
        rows := acc.rows.map fun r => r.map fun kv => (renameKey m.1 m.2 kv.1, kv.2) }
    else acc
  [("START_LAT", "LATITUDE"), ("START_LNG", "LONGITUDE")].foldl step df1

/-! ### Phase 6: `phase_validate_clean` (preprocess.py lines 622-638) -/

/-- Pandas `Series.isin([1, 2, 3, 4])` on one cell: numeric equality, with
booleans comparing as 0/1, strings and missing values never matching. -/
def valueIn1234 : Value → Bool
  | .int n => decide (n = 1 ∨ n = 2 ∨ n = 3 ∨ n = 4)
  | .float (some q) => decide (q = 1 ∨ q = 2 ∨ q = 3 ∨ q = 4)
  | .bool b => b
  | _ => false

/-- Phase 6: find the first column whose upper-cased name contains
"SEVERITY"; when found, keep only rows whose value there is in {1,2,3,4}. -/
def phase_validate_clean (df : Frame) : Frame :=
  match df.cols.find? (fun c => strHasSub "SEVERITY" (strUpper c.1)) with
  | some sev =>
      { df with
        rows := df.rows.filter fun r =>
          match rowGet r sev.1 with
          | some v => valueIn1234 v
          | none => false }
  | none => df

/-! ### Type mapper: `get_sql_server_type` (analyze.py lines 20-93) -/

/-- The thirteen environment flag columns special-cased inside the
object/string branch of the mapper. -/
def booleanColumnsList : List String :=
  ["AMENITY", "BUMP", "CROSSING", "GIVE_WAY", "JUNCTION",
   "NO_EXIT", "RAILWAY", "ROUNDABOUT", "STATION", "STOP",
   "TRAFFIC_CALMING", "TRAFFIC_SIGNAL", "TURNING_LOOP"]

/-- NVARCHAR sizing by observed maximum string length. -/
def nvarcharBySize (maxLength : Nat) : String :=
  if maxLength ≤ 50 then "NVARCHAR(50)"
  else if maxLength ≤ 100 then "NVARCHAR(100)"
  else if maxLength ≤ 255 then "NVARCHAR(255)"
  else if maxLength ≤ 1000 then "NVARCHAR(1000)"
  else if maxLength ≤ 4000 then "NVARCHAR(4000)"
  else "NVARCHAR(MAX)"

/-- Core of the mapper on the already upper-cased column name, in exactly the
source's rule order. -/
def sqlTypeCore (pandasDtype u : String) (maxLength : Nat) : String :=
  if u = "DATE" then "DATE"
  else if ["LATITUDE", "LONGITUDE", "LAT", "LNG"].any (fun k => strHasSub k u) then
    "DECIMAL(9,6)"
  else if (pandasDtype = "object" ∨ pandasDtype = "string") ∧ u ∈ booleanColumnsList then
    "BIT"
  else if u = "IS_WEEKEND" then "BIT"
  else if pandasDtype = "object" ∨ pandasDtype = "string" then nvarcharBySize maxLength
  else if pandasDtype = "int8" then "TINYINT"
  else if pandasDtype = "int16" then "SMALLINT"
  else if pandasDtype = "int32" ∨ pandasDtype = "int64" then
    (if u = "DURATION" then "BIGINT" else "INT")
  else if pandasDtype = "bool" then "BIT"
  else if pandasDtype = "float32" ∨ pandasDtype = "float64" then "DECIMAL(8,4)"
  else if pandasDtype = "category" then
    (if maxLength ≤ 50 then "NVARCHAR(50)"
     else if maxLength ≤ 100 then "NVARCHAR(100)"
     else "NVARCHAR(255)")
  else if strHasSub "datetime" pandasDtype then "DATETIME2"
  else if strHasSub "timedelta" pandasDtype then "TIME"
  else "NVARCHAR(100)"

/-- `get_sql_server_type(pandas_dtype, column_name, max_length)`. -/
def get_sql_server_type (pandasDtype columnName : String) (maxLength : Nat) : String :=
  sqlTypeCore pandasDtype (strUpper columnName) maxLength

/-! ### Column characterizer: `analyze_column_characteristics`
(type_conversion.py lines 53-85 = analyze.py lines 127-159) -/

/-- The descriptor computed per column.  Floats are rationals; the
`null_percentage` is `none` for the float NaN produced by the source's
`0 / 0` on an empty column.  (The `memory_usage_mb` field and the float
`std` — an irrational square root — are outside this rational model.) -/
structure ColumnCharacteristics where
  dtype : Dtype
  non_null_count : Nat
  null_count : Nat
  null_percentage : Option ℚ
  unique_count : Nat
  max_length : Nat
  min_length : Option Nat
  avg_length : Option ℚ
  min_value : Option ℚ
  max_value : Option ℚ
  mean_value : Option ℚ
  deriving DecidableEq, Repr

/-- `Series.isna` on one cell. -/
def isNullVal : Value → Bool
  | .na => true
  | .float none => true
  | _ => false

/-- A cell as a rational, for numeric min/max/mean (bools count as 0/1, as in
pandas numeric reductions). -/
def numericVal : Value → Option ℚ
  | .int n => some n
  | .float (some q) => some q
  | .bool b => some (if b then 1 else 0)
  | _ => none

/-- `str(x)` for the `astype(str)` in the string-length pass; object columns
hold strings, other cases exist only for totality. -/
def pyStr : Value → String
  | .str s => s
  | .int n => toString n
  | .bool b => if b then "True" else "False"
  | _ => ""

/-- Is the dtype numeric in the sense of `pd.api.types.is_numeric_dtype`? -/
def numericDtype : Dtype → Bool
  | .int8 | .int16 | .int32 | .int64 | .float32 | .float64 | .boolT => true
  | _ => false

/-- Minimum of a list of naturals, `none` when empty. -/
def natMin : List Nat → Option Nat
  | [] => none
  | h :: t => some (t.foldl min h)

/-- Minimum of a list of rationals, `none` when empty. -/
def ratMin : List ℚ → Option ℚ
  | [] => none
  | h :: t => some (t.foldl min h)

/-- Maximum of a list of rationals, `none` when empty. -/
def ratMax : List ℚ → Option ℚ
  | [] => none
  | h :: t => some (t.foldl max h)

/-- Mean of a list of rationals, `none` when empty. -/
def ratMean : List ℚ → Option ℚ
  | [] => none
  | h :: t => some ((h :: t).sum / (h :: t).length)

/-- `analyze_column_characteristics` on one column: counts, null percentage,
distinct count, and dtype-dependent length / value statistics, each guarded
so that a column with zero non-null values keeps the sentinel defaults. -/
def analyze_column_characteristics (dt : Dtype) (values : List Value) :
    ColumnCharacteristics :=
  let total := values.length
  let nonNull := values.filter fun v => !isNullVal v
  let nulls := total - nonNull.length
  let lengths := if dt = .objectT then nonNull.map (fun v => (pyStr v).length) else []
  let nums := if numericDtype dt then nonNull.filterMap numericVal else []
  { dtype := dt
    non_null_count := nonNull.length
    null_count := nulls
    null_percentage :=
      if total = 0 then none else some ((nulls : ℚ) / (total : ℚ) * 100)
    unique_count := nonNull.dedup.length
    max_length := lengths.foldl max 0
    min_length := natMin lengths
    avg_length :=
      match lengths with
      | [] => none
      | h :: t => some (((h :: t).map (fun n => (n : ℚ))).sum / (h :: t).length)
    min_value := ratMin nums
    max_value := ratMax nums
    mean_value := ratMean nums }

/-! ### Chunk driver: `process_chunks` (preprocess.py lines 661-751) -/

/-- The running statistics dictionary (its constant `time_features_added`
entry included). -/
structure Stats where
  chunks_processed : Nat
  total_rows_input : Nat
  total_rows_output : Nat
  columns_deleted : Nat
  time_features_added : Nat
  deriving DecidableEq, Repr

/-- Initial statistics of a run. -/
def initStats : Stats :=
  { chunks_processed := 0, total_rows_input := 0, total_rows_output := 0,
    columns_deleted := 0, time_features_added := 7 }

/-- Outcome of a run: `stats = none` models the source returning `None`;
`outputExists` is whether the output file exists afterwards; `written` the
chunks appended to it, in order. -/
structure RunResult where
  stats : Option Stats
  outputExists : Bool
  written : List Frame
  deriving DecidableEq, Repr

/-- The default `columns_to_delete` of `process_chunks` and `main`. -/
def defaultColumnsToDelete : List String :=
  ["ID", "Description", "End_Lat", "End_Lng", "End_Time", "Weather_Timestamp"]

/-- Split rows into successive windows of at most `n` rows (the
`pd.read_csv(chunksize=n)` reader); fueled to stay structurally recursive. -/
def chunkRowsAux (n : Nat) : Nat → List Row → List (List Row)
  | 0, _ => []
  | _, [] => []
  | fuel + 1, rows => rows.take n :: chunkRowsAux n fuel (rows.drop n)

/-- The windows read from an input frame. -/
def chunkify (n : Nat) (df : Frame) : List Frame :=
  (chunkRowsAux n df.rows.length df.rows).map fun rs => { cols := df.cols, rows := rs }

/-- The per-window loop of `process_chunks`: apply the six phases in order;
a window left empty by the date filter is skipped before any statistics
update; any phase error aborts the whole run (`none`), keeping the chunks
already written.  `k` is the number of windows already iterated. -/
def procLoop (p : ParseFn) (toDelete : List String) (dateCutoff : String) :
    List Frame → Nat → Stats → List Frame → Option Stats × List Frame
  | [], _, stats, written => (some stats, written)
  | chunk :: rest, k, stats, written =>
    let chunkNum := k + 1
    let initialRows := chunk.rows.length
    let initialCols := chunk.cols.length
    let c1 := phase_delete_columns chunk toDelete
    let stats :=
      if chunkNum = 1 then
        { stats with columns_deleted := initialCols - c1.cols.length }
      else stats
    match phase_filter_date p c1 "Start_Time" dateCutoff with
    | .error _ => (none, written)
    | .ok c2 =>
      if c2.rows.length = 0 then
        procLoop p toDelete dateCutoff rest chunkNum stats written
      else
        match phase_create_time_features p c2 "Start_Time" with
        | .error _ => (none, written)
        | .ok c3 =>
          match phase_sql_data_types c3 with
          | .error _ => (none, written)
          | .ok c4 =>
            let c5 := phase_standardize_columns c4
            let c6 := phase_validate_clean c5
            procLoop p toDelete dateCutoff rest chunkNum
              { stats with
                chunks_processed := chunkNum,
                total_rows_input := stats.total_rows_input + initialRows,
                total_rows_output := stats.total_rows_output + c6.rows.length }
              (written ++ [c6])

/-- `process_chunks`: fail at once (output untouched) when the input file is
missing; otherwise delete any pre-existing output file, then — inside the
`try` — fail if the chunk size is not positive, and otherwise run the
per-window loop.  The output file exists afterwards iff at least one window
was written. -/
def process_chunks (inputExists outputExistsBefore : Bool) (chunkSize : Int)
    (input : Frame) (columnsToDelete : List String) (dateCutoff : String)
    (p : ParseFn) : RunResult :=
  if inputExists then
    if chunkSize ≤ 0 then
      { stats := none, outputExists := false, written := [] }
    else
      let res := procLoop p columnsToDelete dateCutoff
        (chunkify chunkSize.toNat input) 0 initStats []
      { stats := res.1, outputExists := !res.2.isEmpty, written := res.2 }
  else
    { stats := none, outputExists := outputExistsBefore, written := [] }

/-- Did a window survive column deletion and date filtering with at least
one row (and so get counted by the source's statistics updates)? -/
def chunkKept (p : ParseFn) (toDelete : List String) (dateCutoff : String)
    (chunk : Frame) : Bool :=
  match phase_filter_date p (phase_delete_columns chunk toDelete) "Start_Time" dateCutoff with
  | .ok f => !f.rows.isEmpty
  | .error _ => false

/-- 1-based index of the last `true`; 0 when there is none. -/
def lastTrueIdx : List Bool → Nat
  | [] => 0
  | b :: bs =>
    let r := lastTrueIdx bs
    if r = 0 then (if b then 1 else 0) else r + 1

/-- Sum of the sizes at the `true` positions. -/
def keptSum : List Nat → List Bool → Nat
  | _, [] => 0
  | [], _ => 0
  | s :: ss, b :: bs => (if b then s else 0) + keptSum ss bs

/-! ### Concrete test fixtures -/

/-- A concrete date parser: only the default cutoff "2018-01-01" parses
(to the abstract epoch offset 100); everything else is unparseable. -/
def toyParse : ParseFn := fun s => if s = "2018-01-01" then some 100 else none

/-- A two-record accident chunk: one record after the cutoff, one before. -/
def toyAccidents : Frame :=
  { cols := [("Severity", .int64), ("Start_Time", .datetimeT), ("End_Time", .datetimeT)],
    rows := [[("Severity", .int 2), ("Start_Time", .timestamp 150), ("End_Time", .timestamp 160)],
             [("Severity", .int 3), ("Start_Time", .timestamp 50), ("End_Time", .timestamp 60)]] }

/-- The statistics of running the driver on `toyAccidents` with window size 1. -/
def toyStats : Stats :=
  { chunks_processed := 1, total_rows_input := 1, total_rows_output := 1,
    columns_deleted := 1, time_features_added := 7 }

/-- A one-record chunk with an untrimmed string value. -/
def toyCity : Frame :=
  { cols := [("Start_Time", .datetimeT), ("City", .objectT)],
    rows := [[("Start_Time", .timestamp 150), ("City", .str " Springfield ")]] }

/-- A one-column object frame holding an untrimmed string. -/
def cityOnlyDf : Frame :=
  { cols := [("City", .objectT)], rows := [[("City", .str " Springfield ")]] }

/-- An `int64` flag column named Crossing with values 0, 1, 1, 0. -/
def crossingDf : Frame :=
  { cols := [("Crossing", .int64)],
    rows := [[("Crossing", .int 0)], [("Crossing", .int 1)],
             [("Crossing", .int 1)], [("Crossing", .int 0)]] }

/-- A string-typed time column with one parseable and one unparseable cell. -/
def toyStrDf : Frame :=
  { cols := [("Start_Time", .objectT)],
    rows := [[("Start_Time", .str "2018-01-01")], [("Start_Time", .str "bogus")]] }

/-- A chunk whose single time cell is unparseable. -/
def toyBadTimeDf : Frame :=
  { cols := [("Start_Time", .objectT)], rows := [[("Start_Time", .str "bogus")]] }

/-- Did an `Except Unit` computation succeed? -/
def exOk {α : Type} : Except Unit α → Bool
  | .ok _ => true
  | .error _ => false

/-- A chunk whose single timestamp (2022-01-08, epoch second 1641600000)
falls on a Saturday. -/
def weekendDf : Frame :=
  { cols := [("Start_Time", .datetimeT)], rows := [[("Start_Time", .timestamp 1641600000)]] }

/-- The single record `phase_create_time_features` derives on `weekendDf`. -/
def wkRow : Row :=
  [("YEAR", .int 2022), ("QUARTER", .int 1), ("MONTH", .int 1), ("DAY", .int 8),
   ("HOUR", .int 0), ("MINUTE", .int 0), ("SECOND", .int 0),
   ("IS_WEEKEND", .bool true)]

/-- Phase 2 output on `toyStrDf`. -/
def strFiltered : Frame :=
  { cols := [("Start_Time", .datetimeT)], rows := [[("Start_Time", .timestamp 100)]] }

/-- The output of phase 4 on `crossingDf`. -/
def crossingOutDf : Frame :=
  { cols := [("Crossing", .int32)],
    rows := [[("Crossing", .int 0)], [("Crossing", .int 1)],
             [("Crossing", .int 1)], [("Crossing", .int 0)]] }

/-- The output of phase 4 on `cityOnlyDf`. -/
def cityOnlyOut : Frame :=
  { cols := [("City", .stringT)], rows := [[("City", .str " Springfield ")]] }

/-- The output of phase 3 on `weekendDf`. -/
def weekendOut : Frame :=
  { cols := [("YEAR", .int16), ("QUARTER", .int8), ("MONTH", .int8), ("DAY", .int8),
             ("HOUR", .int8), ("MINUTE", .int8), ("SECOND", .int8), ("IS_WEEKEND", .boolT)],
    rows := [[("YEAR", .int 2022), ("QUARTER", .int 1), ("MONTH", .int 1), ("DAY", .int 8),
              ("HOUR", .int 0), ("MINUTE", .int 0), ("SECOND", .int 0),
              ("IS_WEEKEND", .bool true)]] }

/-! ### Association-list lemmas -/

theorem rowGet_rowSet_self (n : String) (f : Value → Value) (r : Row) :
    rowGet (rowSet n f r) n = (rowGet r n).map f := by
  induction r with
  | nil => rfl
  | cons kv t ih =>
    obtain ⟨k, v⟩ := kv
    by_cases hk : k = n
    · simp only [rowSet, if_pos hk, rowGet, assocGet]
      rfl
    · simp only [rowSet, if_neg hk, rowGet, assocGet]
      exact ih

theorem rowGet_dropKeys_not_mem {n : String} {names : List String} (r : Row)
    (h : n ∉ names) : rowGet (rowDropKeys names r) n = rowGet r n := by
  induction r with
  | nil => rfl
  | cons kv t ih =>
    obtain ⟨k, v⟩ := kv
    by_cases hk : k ∈ names
    · have hne : k ≠ n := fun he => h (he ▸ hk)
      simp only [rowDropKeys, if_pos hk, rowGet, assocGet]
      rw [if_neg hne]
      exact ih
    · simp only [rowDropKeys, if_neg hk, rowGet, assocGet]
      by_cases he : k = n
      · rw [if_pos he, if_pos he]
      · rw [if_neg he, if_neg he]
        exact ih

theorem rowGet_append_of_none {r : Row} {n : String} (s : Row)
    (h : rowGet r n = none) : rowGet (r ++ s) n = rowGet s n := by
  induction r with
  | nil => rfl
  | cons kv t ih =>
    obtain ⟨k, v⟩ := kv
    by_cases hk : k = n
    · simp only [rowGet, assocGet, if_pos hk] at h
      cases h
    · simp only [rowGet, assocGet, if_neg hk, List.cons_append] at h ⊢
      exact ih h

theorem rowGet_rowAssign_self (n : String) (v : Value) (r : Row) :
    rowGet (rowAssign n v r) n = some v := by
  unfold rowAssign
  by_cases h : (rowGet r n).isSome
  · rw [if_pos h, rowGet_rowSet_self]
    cases hr : rowGet r n with
    | none => rw [hr] at h; simp at h
    | some w => simp
  · rw [if_neg h]
    have hn : rowGet r n = none := by
      cases hr : rowGet r n with
      | none => rfl
      | some w => rw [hr] at h; simp at h
    rw [rowGet_append_of_none _ hn]
    simp [rowGet, assocGet]

theorem exMapM_forall₂ {α β : Type} (f : α → Except Unit β) :
    ∀ {l : List α} {l2 : List β}, exMapM f l = .ok l2 →
      List.Forall₂ (fun a b => f a = .ok b) l l2 := by
  intro l
  induction l with
  | nil => intro l2 h; cases h; exact .nil
  | cons a t ih =>
    intro l2 h
    unfold exMapM at h
    cases hf : f a with
    | error e => rw [hf] at h; cases h
    | ok b =>
      rw [hf] at h
      cases ht : exMapM f t with
      | error e => rw [ht] at h; cases h
      | ok t2 =>
        rw [ht] at h
        cases h
        exact .cons hf (ih ht)

theorem assocGet_map_snd {β γ : Type} (f : String → β → γ)
    (cs : List (String × β)) (n : String) :
    assocGet (cs.map fun c => (c.1, f c.1 c.2)) n = (assocGet cs n).map (f n) := by
  induction cs with
  | nil => rfl
  | cons c t ih =>
    by_cases hk : c.1 = n
    · subst hk; simp [assocGet]
    · simp [assocGet, hk]
      exact ih

theorem map_fst_map_snd {β γ : Type} (f : String → β → γ) (cs : List (String × β)) :
    (cs.map fun c => (c.1, f c.1 c.2)).map Prod.fst = cs.map Prod.fst := by
  induction cs with
  | nil => rfl
  | cons c t ih => simp

/-! ### Phase-level helper lemmas -/

theorem mem_colNames_delete (df : Frame) (del : List String) (n : String) :
    n ∈ colNames (phase_delete_columns df del) ↔ n ∈ colNames df ∧ n ∉ del := by
  simp only [phase_delete_columns]
  by_cases he : (del.filter fun c => decide (c ∈ colNames df)).isEmpty = true
  · rw [if_pos he]
    constructor
    · intro hn
      refine ⟨hn, fun hd => ?_⟩
      have hmem : n ∈ del.filter fun c => decide (c ∈ colNames df) :=
        List.mem_filter.mpr ⟨hd, decide_eq_true hn⟩
      rw [List.isEmpty_iff.mp he] at hmem
      cases hmem
    · exact fun h => h.1
  · rw [if_neg he]
    constructor
    · intro hn
      obtain ⟨c, hc, rfl⟩ := List.mem_map.mp hn
      have hcf := List.mem_filter.mp hc
      refine ⟨List.mem_map.mpr ⟨c, hcf.1, rfl⟩, fun hd => ?_⟩
      have hmem : c.1 ∈ del.filter fun x => decide (x ∈ colNames df) :=
        List.mem_filter.mpr ⟨hd, decide_eq_true (List.mem_map.mpr ⟨c, hcf.1, rfl⟩)⟩
      exact (of_decide_eq_true hcf.2) hmem
    · rintro ⟨hn, hd⟩
      obtain ⟨c, hc, rfl⟩ := List.mem_map.mp hn
      refine List.mem_map.mpr ⟨c, List.mem_filter.mpr ⟨hc, decide_eq_true ?_⟩, rfl⟩
      intro hmem
      exact hd (List.mem_filter.mp hmem).1

theorem rows_length_delete (df : Frame) (del : List String) :
    (phase_delete_columns df del).rows.length = df.rows.length := by
  simp only [phase_delete_columns]
  split
  · rfl
  · simp

theorem cols_delete_cases (df : Frame) (del : List String) :
    (phase_delete_columns df del).cols = df.cols ∨
      (phase_delete_columns df del).cols =
        df.cols.filter fun c =>
          decide (c.1 ∉ del.filter fun x => decide (x ∈ colNames df)) := by
  simp only [phase_delete_columns]
  split
  · exact .inl rfl
  · exact .inr rfl

theorem colNames_filterPrep (p : ParseFn) (tc : String) (df : Frame) :
    colNames (filterPrep p tc df) = colNames df := by
  unfold filterPrep
  split
  · rfl
  · simp only [colNames, setColDtype]
    rw [List.map_map]
    congr 1
    funext c
    by_cases hc : c.1 = tc
    · simp [hc]
    · simp [hc]

theorem rows_filterPrep (p : ParseFn) (tc : String) (df : Frame) :
    (filterPrep p tc df).rows = df.rows ∨
      (filterPrep p tc df).rows = df.rows.map (convertTimeRow p tc) := by
  unfold filterPrep
  split
  · exact .inl rfl
  · exact .inr rfl

theorem rows_length_filterPrep (p : ParseFn) (tc : String) (df : Frame) :
    (filterPrep p tc df).rows.length = df.rows.length := by
  rcases rows_filterPrep p tc df with h | h <;> simp [h]

/-- The converted time cell of a row, as a function of its parse status. -/
theorem rowGet_convertTimeRow (p : ParseFn) (tc : String) (r : Row) :
    rowGet (convertTimeRow p tc r) tc =
      (rowGet r tc).map fun v =>
        match toDatetimeOpt p v with
        | some t => .timestamp t
        | none => .na := by
  unfold convertTimeRow
  exact rowGet_rowSet_self tc _ r

/-- On a row whose time cell is already a timestamp, phase 2/3 conversion
leaves that cell a timestamp. -/
theorem badTimeCell_convert_of_keep {c : Int} {tc : String} {r : Row}
    (h : keepAfter c tc r = true) :
    badTimeCell tc (convertTimeRow p tc r) = false := by
  unfold keepAfter at h
  unfold badTimeCell
  rw [rowGet_convertTimeRow]
  cases hv : rowGet r tc with
  | none => rw [hv] at h; cases h
  | some v =>
    rw [hv] at h
    cases v <;> simp_all [toDatetimeOpt]

/-- Phase 1 preserves the values of every column outside the delete list,
row by row. -/
theorem rows_delete_forall₂ (df : Frame) (del : List String) :
    List.Forall₂ (fun r rp => ∀ n, n ∉ del → rowGet rp n = rowGet r n)
      df.rows (phase_delete_columns df del).rows := by
  simp only [phase_delete_columns]
  split
  · exact List.forall₂_same.mpr fun r _ n _ => rfl
  · rw [List.forall₂_map_right_iff]
    refine List.forall₂_same.mpr fun r _ n hn => ?_
    refine rowGet_dropKeys_not_mem r fun hmem => ?_
    exact hn (List.mem_filter.mp hmem).1

theorem rows_length_filter {p : ParseFn} {df out : Frame} {tc cut : String}
    (h : phase_filter_date p df tc cut = .ok out) :
    out.rows.length ≤ df.rows.length := by
  simp only [phase_filter_date] at h
  by_cases htc : tc ∈ colNames df
  · rw [if_pos htc] at h
    cases hp : p cut with
    | none => rw [hp] at h; cases h
    | some c =>
      rw [hp] at h
      cases h
      calc ((filterPrep p tc df).rows.filter (keepAfter c tc)).length
          ≤ (filterPrep p tc df).rows.length := List.length_filter_le _ _
        _ = df.rows.length := rows_length_filterPrep p tc df
  · rw [if_neg htc] at h
    cases h
    exact le_refl _

theorem rows_length_create {p : ParseFn} {df out : Frame} {tc : String}
    (h : phase_create_time_features p df tc = .ok out) :
    out.rows.length = df.rows.length := by
  simp only [phase_create_time_features] at h
  by_cases htc : tc ∈ colNames df
  · rw [if_pos htc] at h
    by_cases hany : (df.rows.map (convertTimeRow p tc)).any (badTimeCell tc) = true
    · rw [if_pos hany] at h; cases h
    · rw [if_neg hany] at h
      cases h
      simp
  · rw [if_neg htc] at h
    cases h
    rfl

theorem rows_length_standardize (df : Frame) :
    (phase_standardize_columns df).rows.length = df.rows.length := by
  simp only [phase_standardize_columns, List.foldl]
  split_ifs <;> simp

theorem rows_length_validate (df : Frame) :
    (phase_validate_clean df).rows.length ≤ df.rows.length := by
  unfold phase_validate_clean
  split
  · exact List.length_filter_le _ _
  · exact le_refl _

/-! ### Claim C1 -/

/-- Claim C1 (counterexample): on a chunk carrying both a start- and an
end-timestamp column, phase 1 with the driver's default delete list drops
`End_Time` without ever creating a DURATION field — no DURATION column
exists after phase 1, contradicting the claimed computation. -/
theorem claim_C1_counterexample :
    "Start_Time" ∈ colNames toyAccidents ∧
    "End_Time" ∈ colNames toyAccidents ∧
    "End_Time" ∈ defaultColumnsToDelete ∧
    "DURATION" ∉ colNames (phase_delete_columns toyAccidents defaultColumnsToDelete) ∧
    "End_Time" ∉ colNames (phase_delete_columns toyAccidents defaultColumnsToDelete) := by
  refine ⟨by decide, by decide, by decide, ?_, ?_⟩ <;> decide

/-- Claim C1 (amended): phase 1 computes nothing — it only deletes columns.
A column name survives phase 1 exactly when it is an input column outside the
delete list, surviving columns keep their values row by row, the row count is
unchanged, and in particular no DURATION column appears unless the input
already had one. -/
theorem claim_C1_delete_only (df : Frame) (del : List String) :
    (∀ n, n ∈ colNames (phase_delete_columns df del) ↔
      n ∈ colNames df ∧ n ∉ del) ∧
    (phase_delete_columns df del).rows.length = df.rows.length ∧
    List.Forall₂ (fun r rp => ∀ n, n ∉ del → rowGet rp n = rowGet r n)
      df.rows (phase_delete_columns df del).rows ∧
    ("DURATION" ∉ colNames df →
      "DURATION" ∉ colNames (phase_delete_columns df del)) :=
  ⟨mem_colNames_delete df del, rows_length_delete df del, rows_delete_forall₂ df del,
    fun h hmem => h ((mem_colNames_delete df del "DURATION").mp hmem).1⟩

/-- Witness for C1 at the concrete fixture. -/
theorem claim_C1_witness :
    "DURATION" ∉ colNames toyAccidents ∧
    "DURATION" ∉ colNames (phase_delete_columns toyAccidents defaultColumnsToDelete) :=
  ⟨by decide,
    (claim_C1_delete_only toyAccidents defaultColumnsToDelete).2.2.2 (by decide)⟩

/-! ### Claim C2 -/

/-- In the mapper, any flag-set name with string-like dtype gives BIT. -/
theorem sqlTypeCore_bit (dt u : String) (len : Nat)
    (hu : u ∈ booleanColumnsList) (hd : dt = "object" ∨ dt = "string") :
    sqlTypeCore dt u len = "BIT" := by
  rcases hd with h | h <;> subst h <;> fin_cases hu <;> rfl

/-- In the mapper, the name IS_WEEKEND gives BIT for every source dtype. -/
theorem sqlTypeCore_isweekend (dt : String) (len : Nat) :
    sqlTypeCore dt "IS_WEEKEND" len = "BIT" := by
  unfold sqlTypeCore
  have h3 : ¬((dt = "object" ∨ dt = "string") ∧
      ("IS_WEEKEND" : String) ∈ booleanColumnsList) :=
    fun h => absurd h.2 (by decide)
  rw [if_neg (by decide), if_neg (by decide), if_neg h3, if_pos rfl]

/-- The post-phase-4 schema is the dtype image of the input schema. -/
theorem cols_sql {df out : Frame} (h : phase_sql_data_types df = .ok out) :
    out.cols = df.cols.map fun c => (c.1, sqlColDtype c.1 c.2) := by
  unfold phase_sql_data_types at h
  cases hm : exMapM (sqlRowTransform df.cols) df.rows with
  | error e => rw [hm] at h; cases h
  | ok rows2 => rw [hm] at h; cases h; rfl

/-- Post-phase-4 rows arise row by row from `sqlRowTransform`. -/
theorem rows_sql_forall₂ {df out : Frame} (h : phase_sql_data_types df = .ok out) :
    List.Forall₂ (fun r rp => sqlRowTransform df.cols r = .ok rp)
      df.rows out.rows := by
  unfold phase_sql_data_types at h
  cases hm : exMapM (sqlRowTransform df.cols) df.rows with
  | error e => rw [hm] at h; cases h
  | ok rows2 => rw [hm] at h; cases h; exact exMapM_forall₂ _ hm

theorem rows_length_sql {df out : Frame} (h : phase_sql_data_types df = .ok out) :
    out.rows.length = df.rows.length :=
  ((rows_sql_forall₂ h).length_eq).symm

/-- Phase 4 never produces a bool column. -/
theorem sqlColDtype_ne_bool (n : String) (d : Dtype) :
    sqlColDtype n d ≠ .boolT := by
  unfold sqlColDtype
  split_ifs <;> simp_all

/-- Claim C2 (counterexample): the mapper sends the numeric flag column
("int64", "Crossing") to INT, not BIT, and phase 4 leaves the {0,1}-valued
`int64` column Crossing integer-typed with the values 0,1,1,0 unchanged — no
nonzero-to-true coercion happens. -/
theorem claim_C2_counterexample :
    get_sql_server_type "int64" "Crossing" 0 = "INT" ∧
    get_sql_server_type "int64" "Crossing" 0 ≠ "BIT" ∧
    phase_sql_data_types crossingDf = .ok crossingOutDf ∧
    colDtype crossingOutDf "Crossing" = some .int32 ∧
    crossingOutDf.rows.map (fun r => rowGet r "Crossing") =
      [some (.int 0), some (.int 1), some (.int 1), some (.int 0)] :=
  ⟨by decide, by decide, by decide, by decide, by decide⟩

/-- Claim C2 (amended): a flag-set column name maps to BIT only when the
source dtype is object/string (IS_WEEKEND maps to BIT for every dtype), and
the normalisation phase never produces a boolean column — numeric flag
columns are not coerced to booleans. -/
theorem claim_C2_flag_columns (pandasDtype columnName : String) (maxLength : Nat) :
    (strUpper columnName ∈ booleanColumnsList →
      pandasDtype = "object" ∨ pandasDtype = "string" →
      get_sql_server_type pandasDtype columnName maxLength = "BIT") ∧
    (strUpper columnName = "IS_WEEKEND" →
      get_sql_server_type pandasDtype columnName maxLength = "BIT") ∧
    (∀ df out, phase_sql_data_types df = .ok out → ∀ c ∈ out.cols, c.2 ≠ .boolT) :=
  ⟨fun hu hd => sqlTypeCore_bit pandasDtype (strUpper columnName) maxLength hu hd,
   fun hu => by
     unfold get_sql_server_type
     rw [hu]
     exact sqlTypeCore_isweekend pandasDtype maxLength,
   fun df out h c hc => by
     rw [cols_sql h] at hc
     obtain ⟨c0, _, rfl⟩ := List.mem_map.mp hc
     exact sqlColDtype_ne_bool c0.1 c0.2⟩

/-- Witness for C2 at concrete inputs. -/
theorem claim_C2_witness :
    strUpper "Crossing" ∈ booleanColumnsList ∧
    get_sql_server_type "object" "Crossing" 0 = "BIT" ∧
    get_sql_server_type "int64" "Is_Weekend" 0 = "BIT" ∧
    (("Crossing", Dtype.int32) : String × Dtype).2 ≠ .boolT :=
  ⟨by decide,
   (claim_C2_flag_columns "object" "Crossing" 0).1 (by decide) (.inl rfl),
   (claim_C2_flag_columns "int64" "Is_Weekend" 0).2.1 (by decide),
   (claim_C2_flag_columns "int64" "Is_Weekend" 0).2.2 crossingDf crossingOutDf
     (by decide) ("Crossing", .int32) (by decide)⟩

/-! ### Claim C3 -/

/-- Phase 4 is the identity on cells of non-coordinate object columns. -/
theorem sqlValTransform_object (n : String) (hn : n ∉ coordCols) (v : Value) :
    sqlValTransform n .objectT v = .ok v := by
  unfold sqlValTransform
  rw [if_neg hn]
  simp

/-- Phase 4 keeps the key of every cell. -/
theorem sqlKvTransform_fst {cs : List (String × Dtype)} {k : String} {v : Value}
    {b : String × Value} (hg : sqlKvTransform cs (k, v) = .ok b) : b.1 = k := by
  unfold sqlKvTransform at hg
  dsimp only at hg
  cases hd2 : assocGet cs k with
  | none => rw [hd2] at hg; cases hg; rfl
  | some d =>
    rw [hd2] at hg
    dsimp only at hg
    cases hv : sqlValTransform k d v with
    | error e => rw [hv] at hg; cases hg
    | ok w =>
      rw [hv] at hg
      cases hg
      rfl

/-- Phase 4 is the identity on a whole cell of a non-coordinate object
column. -/
theorem sqlKvTransform_object {cs : List (String × Dtype)} {k : String}
    (hd : assocGet cs k = some .objectT) (hn : k ∉ coordCols) (v : Value) :
    sqlKvTransform cs (k, v) = .ok (k, v) := by
  unfold sqlKvTransform
  dsimp only
  rw [hd]
  dsimp only
  rw [sqlValTransform_object k hn v]
  rfl

/-- Phase 4 preserves the cell under a non-coordinate object column, row-wise. -/
theorem sqlRowTransform_rowGet_object {cs : List (String × Dtype)} {n : String}
    (hd : assocGet cs n = some .objectT) (hn : n ∉ coordCols) :
    ∀ {r rp : Row}, sqlRowTransform cs r = .ok rp → rowGet rp n = rowGet r n := by
  intro r
  induction r with
  | nil =>
    intro rp h
    cases h
    rfl
  | cons kv t ih =>
    intro rp h
    obtain ⟨k, v⟩ := kv
    unfold sqlRowTransform exMapM at h
    cases hg : sqlKvTransform cs (k, v) with
    | error e => rw [hg] at h; cases h
    | ok b =>
      rw [hg] at h
      cases ht : exMapM (sqlKvTransform cs) t with
      | error e => rw [ht] at h; cases h
      | ok t2 =>
        rw [ht] at h
        cases h
        have hb : b.1 = k := sqlKvTransform_fst hg
        by_cases hk : k = n
        · have hd2 : assocGet cs k = some Dtype.objectT := by rw [hk]; exact hd
          have hn2 : k ∉ coordCols := by rw [hk]; exact hn
          rw [sqlKvTransform_object hd2 hn2 v] at hg
          cases hg
          simp only [rowGet, assocGet]
          rw [if_pos hk, if_pos hk]
        · obtain ⟨bk, bv⟩ := b
          simp only at hb
          simp only [rowGet, assocGet]
          rw [hb, if_neg hk, if_neg hk]
          exact ih ht

/-- A non-coordinate object column keeps its dtype path object → string. -/
theorem sqlColDtype_object {n : String} (hn : n ∉ coordCols) :
    sqlColDtype n .objectT = .stringT := by
  simp [sqlColDtype, hn]

/-- Claim C3 (counterexample): a full driver run writes the value
`" Springfield "` — with leading and trailing whitespace, not `"Unknown"` —
into the output; the pipeline neither trims string values nor substitutes
sentinel values. -/
theorem claim_C3_counterexample :
    (process_chunks true true 5 toyCity defaultColumnsToDelete "2018-01-01"
        toyParse).written.map (fun f => f.rows.map fun r => rowGet r "CITY") =
      [[some (.str " Springfield ")]] ∧
    (" Springfield " : String) ≠ "Unknown" ∧
    (" Springfield " : String).data.head? = some ' ' :=
  ⟨by decide, by decide, by decide⟩

/-- Claim C3 (amended): the type-normalisation phase performs no trimming and
no sentinel replacement — every non-coordinate object column is merely retyped
to the pandas string dtype with each cell value passing through unchanged. -/
theorem claim_C3_strings_pass_through (df out : Frame)
    (h : phase_sql_data_types df = .ok out) (n : String)
    (hd : colDtype df n = some .objectT) (hn : n ∉ coordCols) :
    colDtype out n = some .stringT ∧
    List.Forall₂ (fun r rp => rowGet rp n = rowGet r n) df.rows out.rows := by
  simp only [colDtype] at hd
  constructor
  · show assocGet out.cols n = some .stringT
    rw [cols_sql h, assocGet_map_snd]
    show (assocGet df.cols n).map (sqlColDtype n) = some .stringT
    rw [hd]
    simp [sqlColDtype_object hn]
  · exact (rows_sql_forall₂ h).imp fun r rp hr =>
      sqlRowTransform_rowGet_object hd hn hr

/-- Witness for C3 at the concrete fixture. -/
theorem claim_C3_witness :
    phase_sql_data_types cityOnlyDf = .ok cityOnlyOut ∧
    colDtype cityOnlyOut "City" = some .stringT ∧
    List.Forall₂ (fun r rp => rowGet rp "City" = rowGet r "City")
      cityOnlyDf.rows cityOnlyOut.rows :=
  ⟨by decide,
   (claim_C3_strings_pass_through cityOnlyDf cityOnlyOut (by decide) "City"
      (by decide) (by decide)).1,
   (claim_C3_strings_pass_through cityOnlyDf cityOnlyOut (by decide) "City"
      (by decide) (by decide)).2⟩

/-! ### Claim C7 -/

/-- Claim C7 (counterexample): on an empty column the characterizer's null
percentage is the float NaN — modelled `none` — produced by `0 / 0`, not the
value 0 the claim states. -/
theorem claim_C7_counterexample :
    (analyze_column_characteristics .objectT []).null_percentage = none ∧
    (analyze_column_characteristics .objectT []).null_percentage ≠ some 0 :=
  ⟨by decide, by decide⟩

/-- Claim C7 (amended): the characterizer is total; the null percentage is
`null_count / total * 100` when the column is non-empty and NaN (not 0) when
it is empty; and a column with zero non-null values keeps the sentinel
statistics (`max_length` 0, min/max/mean values absent) instead of raising. -/
theorem claim_C7_characterizer (dt : Dtype) (values : List Value) :
    (values.length ≠ 0 →
      (analyze_column_characteristics dt values).null_percentage =
        some (((analyze_column_characteristics dt values).null_count : ℚ) /
          (values.length : ℚ) * 100)) ∧
    (values.length = 0 →
      (analyze_column_characteristics dt values).null_percentage = none) ∧
    ((analyze_column_characteristics dt values).non_null_count = 0 →
      (analyze_column_characteristics dt values).max_length = 0 ∧
      (analyze_column_characteristics dt values).min_length = none ∧
      (analyze_column_characteristics dt values).avg_length = none ∧
      (analyze_column_characteristics dt values).min_value = none ∧
      (analyze_column_characteristics dt values).max_value = none ∧
      (analyze_column_characteristics dt values).mean_value = none) := by
  refine ⟨fun h => ?_, fun h => ?_, fun h => ?_⟩
  · simp only [analyze_column_characteristics]
    rw [if_neg h]
  · simp only [analyze_column_characteristics]
    rw [if_pos h]
  · simp only [analyze_column_characteristics] at h ⊢
    have hf := List.length_eq_zero.mp h
    rw [hf]
    split_ifs <;> simp [natMin, ratMin, ratMax, ratMean]

/-- Witness for C7 on a non-empty column. -/
theorem claim_C7_witness :
    ([Value.na, Value.str "ab"] : List Value).length ≠ 0 ∧
    (analyze_column_characteristics .objectT [.na, .str "ab"]).null_percentage =
      some (((analyze_column_characteristics .objectT
          [.na, .str "ab"]).null_count : ℚ) /
        (([Value.na, Value.str "ab"] : List Value).length : ℚ) * 100) :=
  ⟨by decide,
   (claim_C7_characterizer .objectT [.na, .str "ab"]).1 (by decide)⟩

/-! ### Claim C4 -/

/-- Claim C4 (confirmed): phase 2 is a pass-through when the time column is
absent; with a parseable cutoff it succeeds, every surviving record has a
parsed timestamp at or after the cutoff, a prepared record survives exactly
when its timestamp cell passes the cutoff test, a record whose source time
cell fails to parse is excluded, and (when conversion happens) a record whose
source cell parses to a timestamp at or after the cutoff is retained. -/
theorem claim_C4_filter_date (p : ParseFn) (df : Frame) (tc cut : String) (c : Int) :
    (tc ∉ colNames df → phase_filter_date p df tc cut = .ok df) ∧
    (tc ∈ colNames df → p cut = some c →
      phase_filter_date p df tc cut = .ok (filterOutput p tc c df) ∧
      (∀ r ∈ (filterOutput p tc c df).rows,
        ∃ t, rowGet r tc = some (.timestamp t) ∧ c ≤ t) ∧
      (∀ r ∈ (filterPrep p tc df).rows,
        (keepAfter c tc r = true ↔ r ∈ (filterOutput p tc c df).rows)) ∧
      (∀ r0 ∈ df.rows, parseCell p tc r0 = none →
        convertTimeRow p tc r0 ∉ (filterOutput p tc c df).rows) ∧
      (colDtype df tc ≠ some .datetimeT →
        ∀ r0 ∈ df.rows, ∀ t, parseCell p tc r0 = some t → c ≤ t →
          convertTimeRow p tc r0 ∈ (filterOutput p tc c df).rows)) := by
  have hmem : ∀ r ∈ (filterOutput p tc c df).rows,
      ∃ t, rowGet r tc = some (.timestamp t) ∧ c ≤ t := by
    intro r hr
    have hk := (List.mem_filter.mp hr).2
    unfold keepAfter at hk
    cases hv : rowGet r tc with
    | none => rw [hv] at hk; cases hk
    | some v =>
      rw [hv] at hk
      cases v with
      | timestamp t => exact ⟨t, rfl, of_decide_eq_true hk⟩
      | na => cases hk
      | int n => cases hk
      | float q => cases hk
      | str s => cases hk
      | bool b => cases hk
  constructor
  · intro h
    unfold phase_filter_date
    rw [if_neg h]
  · intro htc hp
    refine ⟨?_, hmem, fun r hr => ?_, fun r0 hr0 hpar hin => ?_, fun hdt r0 hr0 t hpar hle => ?_⟩
    · unfold phase_filter_date
      rw [if_pos htc, hp]
    · constructor
      · intro hk
        exact List.mem_filter.mpr ⟨hr, hk⟩
      · intro hin
        exact (List.mem_filter.mp hin).2
    · obtain ⟨t, hv, _⟩ := hmem _ hin
      rw [rowGet_convertTimeRow] at hv
      unfold parseCell at hpar
      cases hg : rowGet r0 tc with
      | none => rw [hg] at hv; cases hv
      | some v =>
        rw [hg] at hpar hv
        simp only [Option.bind] at hpar
        simp only [Option.map] at hv
        rw [hpar] at hv
        simp at hv
    · refine List.mem_filter.mpr ⟨?_, ?_⟩
      · unfold filterPrep
        rw [if_neg hdt]
        exact List.mem_map.mpr ⟨r0, hr0, rfl⟩
      · unfold keepAfter
        rw [rowGet_convertTimeRow]
        unfold parseCell at hpar
        cases hg : rowGet r0 tc with
        | none => rw [hg] at hpar; cases hpar
        | some v =>
          rw [hg] at hpar
          simp only [Option.bind] at hpar
          simp only [Option.map]
          rw [hpar]
          simp [hle]

/-- Witness for C4: the pass-through case and a concrete filtered frame. -/
theorem claim_C4_witness :
    ("Start_Time" ∉ colNames cityOnlyDf ∧
      phase_filter_date toyParse cityOnlyDf "Start_Time" "2018-01-01" =
        .ok cityOnlyDf) ∧
    ("Start_Time" ∈ colNames toyStrDf ∧ toyParse "2018-01-01" = some 100 ∧
      phase_filter_date toyParse toyStrDf "Start_Time" "2018-01-01" =
        .ok (filterOutput toyParse "Start_Time" 100 toyStrDf)) :=
  ⟨⟨by decide,
    (claim_C4_filter_date toyParse cityOnlyDf "Start_Time" "2018-01-01" 0).1
      (by decide)⟩,
   ⟨by decide, by decide,
    ((claim_C4_filter_date toyParse toyStrDf "Start_Time" "2018-01-01" 100).2
      (by decide) (by decide)).1⟩⟩

/-! ### Claim C9 -/

/-- The IS_WEEKEND field a derived row carries, read back. -/
theorem rowGet_deriveTimeRow_isweekend {tc : String} (htc : tc ≠ "IS_WEEKEND")
    {r : Row} {t : Int} (hv : rowGet r tc = some (.timestamp t)) :
    rowGet (deriveTimeRow tc r) "IS_WEEKEND" =
      some (.bool (decide (dayOfWeekTs t = 5 ∨ dayOfWeekTs t = 6))) := by
  unfold deriveTimeRow
  rw [hv]
  dsimp only
  rw [rowGet_dropKeys_not_mem]
  · simp only [timeFeatureVals, List.foldl]
    exact rowGet_rowAssign_self _ _ _
  · intro hmem
    rw [List.mem_singleton] at hmem
    exact htc hmem.symm

/-- Claim C9 (confirmed): every record produced by the time-feature phase
carries an IS_WEEKEND bit that is true exactly when its source record's
parsed start-timestamp falls on a Saturday or a Sunday. -/
theorem claim_C9_is_weekend (p : ParseFn) (df : Frame) (tc : String) (out : Frame)
    (htc : tc ∈ colNames df) (hne : tc ≠ "IS_WEEKEND")
    (h : phase_create_time_features p df tc = .ok out) :
    ∀ r ∈ out.rows, ∃ r0 ∈ df.rows, ∃ t : Int,
      parseCell p tc r0 = some t ∧
      ∃ b : Bool, rowGet r "IS_WEEKEND" = some (.bool b) ∧
        (b = true ↔ (fallsOnSaturday t ∨ fallsOnSunday t)) := by
  simp only [phase_create_time_features] at h
  rw [if_pos htc] at h
  by_cases hany : (df.rows.map (convertTimeRow p tc)).any (badTimeCell tc) = true
  · rw [if_pos hany] at h
    cases h
  · rw [if_neg hany] at h
    cases h
    intro r hr
    obtain ⟨rc, hrc, rfl⟩ := List.mem_map.mp hr
    obtain ⟨r0, hr0, rfl⟩ := List.mem_map.mp hrc
    have hbad : badTimeCell tc (convertTimeRow p tc r0) = false := by
      cases hb : badTimeCell tc (convertTimeRow p tc r0) with
      | false => rfl
      | true =>
        exact absurd
          (List.any_eq_true.mpr ⟨_, List.mem_map.mpr ⟨r0, hr0, rfl⟩, hb⟩) hany
    have hts : ∃ t, rowGet (convertTimeRow p tc r0) tc = some (.timestamp t) := by
      unfold badTimeCell at hbad
      cases hv : rowGet (convertTimeRow p tc r0) tc with
      | none => rw [hv] at hbad; cases hbad
      | some v =>
        rw [hv] at hbad
        cases v with
        | timestamp t => exact ⟨t, rfl⟩
        | na => cases hbad
        | int n => cases hbad
        | float q => cases hbad
        | str s => cases hbad
        | bool b => cases hbad
    obtain ⟨t, hv⟩ := hts
    have hpar : parseCell p tc r0 = some t := by
      rw [rowGet_convertTimeRow] at hv
      unfold parseCell
      cases hg : rowGet r0 tc with
      | none => rw [hg] at hv; cases hv
      | some v =>
        rw [hg] at hv
        simp only [Option.map] at hv
        simp only [Option.bind]
        cases hd : toDatetimeOpt p v with
        | none => rw [hd] at hv; simp at hv
        | some u =>
          rw [hd] at hv
          simp only [Option.some.injEq] at hv
          cases hv
          rfl
    refine ⟨r0, hr0, t, hpar,
      decide (dayOfWeekTs t = 5 ∨ dayOfWeekTs t = 6),
      rowGet_deriveTimeRow_isweekend hne hv, ?_⟩
    · constructor
      · intro hb
        exact of_decide_eq_true hb
      · intro hp2
        exact decide_eq_true hp2

/-- Witness for C9: the 2022-01-08 record gets IS_WEEKEND = true, and that
date is a Saturday. -/
theorem claim_C9_witness :
    rowGet wkRow "IS_WEEKEND" = some (.bool true) ∧
    fallsOnSaturday 1641600000 := by
  obtain ⟨r0, hr0, t, hpar, b, hb, hiff⟩ :=
    claim_C9_is_weekend toyParse weekendDf "Start_Time" weekendOut (by decide)
      (by decide) (by decide) wkRow (by decide)
  have hr0e : r0 = [("Start_Time", Value.timestamp 1641600000)] := by
    simpa [weekendDf] using hr0
  subst hr0e
  have h0 : parseCell toyParse "Start_Time"
      [("Start_Time", Value.timestamp 1641600000)] = some 1641600000 := by decide
  have ht : t = 1641600000 := by
    injection h0.symm.trans hpar with h2
    exact h2.symm
  subst ht
  have h1 : rowGet wkRow "IS_WEEKEND" = some (.bool true) := by decide
  have hb2 : b = true := by
    have h2 := h1.symm.trans hb
    simp only [Option.some.injEq, Value.bool.injEq] at h2
    exact h2.symm
  subst hb2
  rcases hiff.mp rfl with hs | hs
  · exact ⟨h1, hs⟩
  · exact absurd hs (by decide)

/-! ### Claim C10 -/

/-- Claim C10 (confirmed): applied on its own, the time-feature phase raises
on any chunk that carries the time column and a record whose time cell is
null or unparseable; but composed after the date filter — the chunk driver's
ordering — it always succeeds, because the filter has removed every such
record (or the column is absent and both phases pass through). -/
theorem claim_C10_time_features_errors (p : ParseFn) :
    (∀ df tc, tc ∈ colNames df →
      (∃ r0 ∈ df.rows, parseCell p tc r0 = none) →
      phase_create_time_features p df tc = .error ()) ∧
    (∀ df tc cut out1, phase_filter_date p df tc cut = .ok out1 →
      exOk (phase_create_time_features p out1 tc) = true) := by
  constructor
  · rintro df tc htc ⟨r0, hr0, hpar⟩
    simp only [phase_create_time_features]
    rw [if_pos htc]
    have hbad : badTimeCell tc (convertTimeRow p tc r0) = true := by
      unfold badTimeCell
      rw [rowGet_convertTimeRow]
      unfold parseCell at hpar
      cases hg : rowGet r0 tc with
      | none => rfl
      | some v =>
        rw [hg] at hpar
        simp only [Option.bind] at hpar
        simp only [Option.map]
        rw [hpar]
    rw [if_pos (List.any_eq_true.mpr ⟨_, List.mem_map.mpr ⟨r0, hr0, rfl⟩, hbad⟩)]
  · intro df tc cut out1 hf
    simp only [phase_filter_date] at hf
    by_cases htc : tc ∈ colNames df
    · rw [if_pos htc] at hf
      cases hp : p cut with
      | none => rw [hp] at hf; cases hf
      | some c =>
        rw [hp] at hf
        cases hf
        simp only [phase_create_time_features]
        have hmemcols : tc ∈ colNames (filterOutput p tc c df) := by
          have h1 : colNames (filterOutput p tc c df) =
              colNames (filterPrep p tc df) := rfl
          rw [h1, colNames_filterPrep]
          exact htc
        rw [if_pos hmemcols]
        have hany : ((filterOutput p tc c df).rows.map
            (convertTimeRow p tc)).any (badTimeCell tc) = false := by
          cases ha : ((filterOutput p tc c df).rows.map
              (convertTimeRow p tc)).any (badTimeCell tc) with
          | false => rfl
          | true =>
            obtain ⟨x, hx, hbx⟩ := List.any_eq_true.mp ha
            obtain ⟨r, hr, rfl⟩ := List.mem_map.mp hx
            have hk := (List.mem_filter.mp hr).2
            rw [badTimeCell_convert_of_keep hk] at hbx
            cases hbx
        rw [if_neg (by rw [hany]; exact Bool.false_ne_true)]
        rfl
    · rw [if_neg htc] at hf
      cases hf
      simp only [phase_create_time_features]
      rw [if_neg htc]
      rfl

/-- Witness for C10: a concrete standalone failure and a concrete
filter-then-derive success. -/
theorem claim_C10_witness :
    phase_create_time_features toyParse toyBadTimeDf "Start_Time" = .error () ∧
    exOk (phase_create_time_features toyParse strFiltered "Start_Time") = true :=
  ⟨(claim_C10_time_features_errors toyParse).1 toyBadTimeDf "Start_Time"
     (by decide) ⟨[("Start_Time", Value.str "bogus")], by decide, by decide⟩,
   (claim_C10_time_features_errors toyParse).2 toyStrDf "Start_Time"
     "2018-01-01" strFiltered (by decide)⟩

/-! ### Claim C8 -/

/-- One surviving window adds at most as many output rows as input rows. -/
theorem chunk_final_le {p : ParseFn} {del : List String} {cut : String}
    {chunk c2 c3 c4 : Frame}
    (hf : phase_filter_date p (phase_delete_columns chunk del) "Start_Time" cut = .ok c2)
    (hc : phase_create_time_features p c2 "Start_Time" = .ok c3)
    (hs : phase_sql_data_types c3 = .ok c4) :
    (phase_validate_clean (phase_standardize_columns c4)).rows.length ≤
      chunk.rows.length :=
  calc (phase_validate_clean (phase_standardize_columns c4)).rows.length
      ≤ (phase_standardize_columns c4).rows.length := rows_length_validate _
    _ = c4.rows.length := rows_length_standardize _
    _ = c3.rows.length := rows_length_sql hs
    _ = c2.rows.length := rows_length_create hc
    _ ≤ (phase_delete_columns chunk del).rows.length := rows_length_filter hf
    _ = chunk.rows.length := rows_length_delete _ _

/-- Loop invariant: the accumulated output row count never exceeds the
accumulated input row count. -/
theorem procLoop_out_le (p : ParseFn) (del : List String) (cut : String) :
    ∀ (chunks : List Frame) (k : Nat) (stats : Stats) (w : List Frame)
      (s : Stats) (w2 : List Frame),
      procLoop p del cut chunks k stats w = (some s, w2) →
      stats.total_rows_output ≤ stats.total_rows_input →
      s.total_rows_output ≤ s.total_rows_input := by
  intro chunks
  induction chunks with
  | nil =>
    intro k stats w s w2 h hle
    simp only [procLoop] at h
    cases h
    exact hle
  | cons chunk rest ih =>
    intro k stats w s w2 h hle
    simp only [procLoop] at h
    cases hf : phase_filter_date p (phase_delete_columns chunk del)
        "Start_Time" cut with
    | error e =>
      rw [hf] at h
      simp at h
    | ok c2 =>
      rw [hf] at h
      dsimp only at h
      have hle1 : (if k + 1 = 1 then
          { stats with columns_deleted :=
              chunk.cols.length - (phase_delete_columns chunk del).cols.length }
          else stats).total_rows_output ≤
          (if k + 1 = 1 then
          { stats with columns_deleted :=
              chunk.cols.length - (phase_delete_columns chunk del).cols.length }
          else stats).total_rows_input := by
        by_cases hk : k + 1 = 1 <;> simp [hk, hle]
      by_cases hz : c2.rows.length = 0
      · rw [if_pos hz] at h
        exact ih _ _ _ _ _ h hle1
      · rw [if_neg hz] at h
        cases hc : phase_create_time_features p c2 "Start_Time" with
        | error e => rw [hc] at h; simp at h
        | ok c3 =>
          rw [hc] at h
          dsimp only at h
          cases hs : phase_sql_data_types c3 with
          | error e => rw [hs] at h; simp at h
          | ok c4 =>
            rw [hs] at h
            dsimp only at h
            refine ih _ _ _ _ _ h ?_
            simp only
            exact Nat.add_le_add hle1 (chunk_final_le hf hc hs)

/-- Claim C8 (confirmed): whenever the chunk driver returns statistics,
total_rows_output ≤ total_rows_input — every phase filters or passes rows
through, never duplicating any. -/
theorem claim_C8_output_le_input (ie ob : Bool) (cs : Int) (input : Frame)
    (del : List String) (cut : String) (p : ParseFn) (s : Stats)
    (h : (process_chunks ie ob cs input del cut p).stats = some s) :
    s.total_rows_output ≤ s.total_rows_input := by
  cases ie with
  | false => simp [process_chunks] at h
  | true =>
    simp only [process_chunks, if_true] at h
    by_cases hcs : cs ≤ 0
    · rw [if_pos hcs] at h
      simp at h
    · rw [if_neg hcs] at h
      simp only at h
      cases hp : procLoop p del cut (chunkify cs.toNat input) 0 initStats [] with
      | mk os ws =>
        rw [hp] at h
        simp only at h
        subst h
        exact procLoop_out_le p del cut _ 0 initStats [] s ws hp (le_refl 0)

/-- Witness for C8 at the concrete fixture run. -/
theorem claim_C8_witness :
    (process_chunks true true 1 toyAccidents defaultColumnsToDelete
        "2018-01-01" toyParse).stats = some toyStats ∧
    toyStats.total_rows_output ≤ toyStats.total_rows_input :=
  ⟨by decide,
   claim_C8_output_le_input true true 1 toyAccidents defaultColumnsToDelete
     "2018-01-01" toyParse toyStats (by decide)⟩

/-! ### Claim C5 -/

/-- Loop characterisation of the two statistics the claim is about:
`chunks_processed` ends as the absolute index of the last window that still
had rows after the date filter, and `total_rows_input` accumulates the
pre-phase sizes of those windows only. -/
theorem procLoop_stats_spec (p : ParseFn) (del : List String) (cut : String) :
    ∀ (chunks : List Frame) (k : Nat) (stats : Stats) (w : List Frame)
      (s : Stats) (w2 : List Frame),
      procLoop p del cut chunks k stats w = (some s, w2) →
      s.chunks_processed =
        (if lastTrueIdx (chunks.map (chunkKept p del cut)) = 0
         then stats.chunks_processed
         else k + lastTrueIdx (chunks.map (chunkKept p del cut))) ∧
      s.total_rows_input = stats.total_rows_input +
        keptSum (chunks.map fun c => c.rows.length)
          (chunks.map (chunkKept p del cut)) := by
  intro chunks
  induction chunks with
  | nil =>
    intro k stats w s w2 h
    simp only [procLoop] at h
    cases h
    simp [lastTrueIdx, keptSum]
  | cons chunk rest ih =>
    intro k stats w s w2 h
    simp only [procLoop] at h
    cases hf : phase_filter_date p (phase_delete_columns chunk del)
        "Start_Time" cut with
    | error e =>
      rw [hf] at h
      simp at h
    | ok c2 =>
      rw [hf] at h
      dsimp only at h
      have hkept : chunkKept p del cut chunk = !c2.rows.isEmpty := by
        unfold chunkKept
        rw [hf]
      have hcp : (if k + 1 = 1 then
          { stats with columns_deleted :=
              chunk.cols.length - (phase_delete_columns chunk del).cols.length }
          else stats).chunks_processed = stats.chunks_processed := by
        by_cases hk1 : k + 1 = 1 <;> simp [hk1]
      have hin : (if k + 1 = 1 then
          { stats with columns_deleted :=
              chunk.cols.length - (phase_delete_columns chunk del).cols.length }
          else stats).total_rows_input = stats.total_rows_input := by
        by_cases hk1 : k + 1 = 1 <;> simp [hk1]
      by_cases hz : c2.rows.length = 0
      · have hkf : chunkKept p del cut chunk = false := by
          rw [hkept, List.length_eq_zero.mp hz]
          rfl
        rw [if_pos hz] at h
        obtain ⟨ih1, ih2⟩ := ih _ _ _ _ _ h
        rw [hcp] at ih1
        rw [hin] at ih2
        constructor
        · rw [ih1]
          simp only [List.map_cons, hkf, lastTrueIdx]
          rw [show (if (false : Bool) = true then (1 : Nat) else 0) = 0 from rfl]
          split_ifs <;> first | rfl | omega | simp_all
        · rw [ih2]
          simp only [List.map_cons, hkf, keptSum]
          simp only [Bool.false_eq_true, ite_false, if_false]
          omega
      · have hne : c2.rows ≠ [] := fun habs => hz (by rw [habs]; rfl)
        have hkt : chunkKept p del cut chunk = true := by
          rw [hkept]
          cases hrows : c2.rows with
          | nil => exact absurd hrows hne
          | cons a l => rfl
        rw [if_neg hz] at h
        cases hc : phase_create_time_features p c2 "Start_Time" with
        | error e => rw [hc] at h; simp at h
        | ok c3 =>
          rw [hc] at h
          dsimp only at h
          cases hs : phase_sql_data_types c3 with
          | error e => rw [hs] at h; simp at h
          | ok c4 =>
            rw [hs] at h
            dsimp only at h
            obtain ⟨ih1, ih2⟩ := ih _ _ _ _ _ h
            dsimp only at ih1 ih2
            rw [hin] at ih2
            constructor
            · rw [ih1]
              simp only [List.map_cons, hkt, lastTrueIdx]
              rw [show (if True then (1 : Nat) else 0) = 1 from rfl]
              split_ifs <;> first | rfl | omega | simp_all
            · rw [ih2]
              simp only [List.map_cons, hkt, keptSum]
              simp only [ite_true, if_true]
              omega

/-- Claim C5 (amended): whenever the driver returns statistics,
`chunks_processed` equals the 1-based index of the LAST window that was still
non-empty after column deletion and date filtering (0 when no window
survives) — trailing filtered-empty windows are NOT counted — and
`total_rows_input` is the sum of the pre-phase sizes of the surviving windows
only, not of all windows read. -/
theorem claim_C5_stats (ie ob : Bool) (cs : Int) (input : Frame)
    (del : List String) (cut : String) (p : ParseFn) (s : Stats)
    (h : (process_chunks ie ob cs input del cut p).stats = some s) :
    s.chunks_processed =
      lastTrueIdx ((chunkify cs.toNat input).map (chunkKept p del cut)) ∧
    s.total_rows_input =
      keptSum ((chunkify cs.toNat input).map fun c => c.rows.length)
        ((chunkify cs.toNat input).map (chunkKept p del cut)) := by
  cases ie with
  | false => simp [process_chunks] at h
  | true =>
    simp only [process_chunks, if_true] at h
    by_cases hcs : cs ≤ 0
    · rw [if_pos hcs] at h
      simp at h
    · rw [if_neg hcs] at h
      simp only at h
      cases hp : procLoop p del cut (chunkify cs.toNat input) 0 initStats [] with
      | mk os ws =>
        rw [hp] at h
        simp only at h
        subst h
        obtain ⟨h1, h2⟩ := procLoop_stats_spec p del cut _ 0 initStats [] s ws hp
        constructor
        · rw [h1]
          by_cases hr :
              lastTrueIdx ((chunkify cs.toNat input).map (chunkKept p del cut)) = 0
          · simp [hr, initStats]
          · simp [hr, initStats]
        · rw [h2]
          simp [initStats]

/-- Claim C5 (counterexample): on a 2-window run whose second window is
emptied by the date filter, the driver reports chunks_processed = 1 and
total_rows_input = 1, although 2 windows were iterated with a total pre-phase
size of 2 — empty windows are skipped before any statistics update. -/
theorem claim_C5_counterexample :
    (process_chunks true true 1 toyAccidents defaultColumnsToDelete
        "2018-01-01" toyParse).stats = some toyStats ∧
    (chunkify 1 toyAccidents).length = 2 ∧
    ((chunkify 1 toyAccidents).map fun c => c.rows.length).sum = 2 ∧
    toyStats.chunks_processed = 1 ∧
    toyStats.total_rows_input = 1 ∧
    toyStats.chunks_processed ≠ (chunkify 1 toyAccidents).length ∧
    toyStats.total_rows_input ≠
      ((chunkify 1 toyAccidents).map fun c => c.rows.length).sum :=
  ⟨by decide, by decide, by decide, by decide, by decide, by decide, by decide⟩

/-- Witness for C5 at the concrete fixture run. -/
theorem claim_C5_witness :
    (process_chunks true true 1 toyAccidents defaultColumnsToDelete
        "2018-01-01" toyParse).stats = some toyStats ∧
    toyStats.chunks_processed =
      lastTrueIdx ((chunkify (1 : Int).toNat toyAccidents).map
        (chunkKept toyParse defaultColumnsToDelete "2018-01-01")) :=
  ⟨by decide,
   (claim_C5_stats true true 1 toyAccidents defaultColumnsToDelete "2018-01-01"
      toyParse toyStats (by decide)).1⟩

/-! ### Claim C6 -/

/-- A frame with rows yields at least one window. -/
theorem chunkify_cons (n : Nat) (input : Frame) (h : input.rows ≠ []) :
    ∃ rest, chunkify n input =
      ({ cols := input.cols, rows := input.rows.take n } : Frame) :: rest := by
  unfold chunkify
  cases hr : input.rows with
  | nil => exact absurd hr h
  | cons a l =>
    refine ⟨(chunkRowsAux n l.length ((a :: l).drop n)).map
      (fun rs => { cols := input.cols, rows := rs }), ?_⟩
    simp [chunkRowsAux, List.length_cons]

/-- Claim C6 (counterexample): with a pre-existing output file and an
unparseable cutoff date, the run fails only after deleting the output file —
`outputExists` flips from true to false — contradicting the claim that a run
failing on a configuration error leaves a pre-existing output file intact. -/
theorem claim_C6_counterexample :
    process_chunks true true 1 toyAccidents defaultColumnsToDelete "garbage"
        toyParse =
      { stats := none, outputExists := false, written := [] } ∧
    process_chunks false true 1 toyAccidents defaultColumnsToDelete "garbage"
        toyParse =
      { stats := none, outputExists := true, written := [] } :=
  ⟨by decide, by decide⟩

/-- Claim C6 (amended): only the missing-input check happens before any file
mutation — that case fails with the pre-existing output untouched.  A
non-positive window size or an unparseable cutoff date is detected only
inside processing, after a pre-existing output file has already been deleted:
the run still fails with no rows written, but the output file is gone. -/
theorem claim_C6_config_errors (ie ob : Bool) (cs : Int) (input : Frame)
    (del : List String) (cut : String) (p : ParseFn) :
    (ie = false →
      process_chunks ie ob cs input del cut p =
        { stats := none, outputExists := ob, written := [] }) ∧
    (ie = true → cs ≤ 0 →
      process_chunks ie ob cs input del cut p =
        { stats := none, outputExists := false, written := [] }) ∧
    (ie = true → 0 < cs → p cut = none → input.rows ≠ [] →
      "Start_Time" ∈ colNames input → "Start_Time" ∉ del →
      process_chunks ie ob cs input del cut p =
        { stats := none, outputExists := false, written := [] }) := by
  refine ⟨fun hie => ?_, fun hie hcs => ?_, fun hie hcs hp hrows htc hdel => ?_⟩
  · subst hie
    rfl
  · subst hie
    simp only [process_chunks, if_true]
    rw [if_pos hcs]
  · subst hie
    simp only [process_chunks, if_true]
    rw [if_neg (not_le.mpr hcs)]
    obtain ⟨rest, hch⟩ := chunkify_cons cs.toNat input hrows
    rw [hch]
    simp only [procLoop]
    have htc2 : "Start_Time" ∈ colNames (phase_delete_columns
        ({ cols := input.cols, rows := input.rows.take cs.toNat } : Frame) del) := by
      rw [mem_colNames_delete]
      exact ⟨htc, hdel⟩
    have hfe : phase_filter_date p (phase_delete_columns
        ({ cols := input.cols, rows := input.rows.take cs.toNat } : Frame) del)
        "Start_Time" cut = .error () := by
      unfold phase_filter_date
      rw [if_pos htc2, hp]
    rw [hfe]
    rfl

/-- Witness for C6 at the three concrete configuration errors. -/
theorem claim_C6_witness :
    process_chunks false true 1 toyAccidents defaultColumnsToDelete "2018-01-01"
        toyParse = { stats := none, outputExists := true, written := [] } ∧
    process_chunks true true 0 toyAccidents defaultColumnsToDelete "2018-01-01"
        toyParse = { stats := none, outputExists := false, written := [] } ∧
    process_chunks true true 1 toyAccidents defaultColumnsToDelete "garbage"
        toyParse = { stats := none, outputExists := false, written := [] } :=
  ⟨(claim_C6_config_errors false true 1 toyAccidents defaultColumnsToDelete
      "2018-01-01" toyParse).1 rfl,
   (claim_C6_config_errors true true 0 toyAccidents defaultColumnsToDelete
      "2018-01-01" toyParse).2.1 rfl (by decide),
   (claim_C6_config_errors true true 1 toyAccidents defaultColumnsToDelete
      "garbage" toyParse).2.2 rfl (by decide) (by decide) (by decide) (by decide)
     (by decide)⟩

end USAcc
